/-
Verification of the timelapse-video-creator frame-preprocessing pipeline.

The definitions below are a shallow embedding of the Python sources under
src/frame_preprocessing/: pure functions become Lean functions, Python
exceptions become Except results, Python ints are modelled as Int and the
float timestamp arithmetic as Rat.  File-system and collaborator calls
(EXIF, suntimes, pytz) are passed in as explicit parameters.
-/
import Mathlib

namespace Timelapse

/-- Python errors that the embedded code can raise.  `zeroDivisionError`
models Python's ZeroDivisionError; `nonExistentTimeError` models
pytz.exceptions.NonExistentTimeError, which `is_in_daylight_savings`
does not catch. -/
inductive PyError where
  | zeroDivisionError
  | nonExistentTimeError
  deriving DecidableEq, Repr

/-- Decidable equality for `Except`, used to evaluate embedded fallible
functions on concrete inputs. -/
instance {ε α : Type} [DecidableEq ε] [DecidableEq α] : DecidableEq (Except ε α) := fun x y =>
  match x, y with
  | .error a, .error b =>
    if h : a = b then .isTrue (by rw [h]) else .isFalse (by intro hc; cases hc; exact h rfl)
  | .ok a, .ok b =>
    if h : a = b then .isTrue (by rw [h]) else .isFalse (by intro hc; cases hc; exact h rfl)
  | .error _, .ok _ => .isFalse (by intro hc; cases hc)
  | .ok _, .error _ => .isFalse (by intro hc; cases hc)

/-- Embedding of `FramePreprocessorOptions` (frame_preprocessor_options.py).
Paths are modelled as strings, Python floats as rationals. -/
structure FramePreprocessorOptions where
  output_dir : String
  input_dirs : List String
  timezone : String
  latitude : Option ℚ
  longitude : Option ℚ
  resize_to_width : Option ℤ
  fade_seconds : ℤ
  night_margin_seconds : ℤ
  ignore_daylight_savings_switch : Bool
  render_date_and_time : Bool
  worker_thread_count : ℤ
  deriving DecidableEq, Repr

/-- Frame disposition as described by the classification logic of
`SingleFrameProcessor.process_frame` / `FramePreprocessor.__process_image`:
skip (outside the observable window), fade near the earliest frame, fade
near the latest frame, or plain copy. -/
inductive Disposition where
  | Skip
  | FadeEarly
  | FadeLate
  | PassThrough
  deriving DecidableEq, Repr

/-- Result of classifying one frame. `fadeProgress` is the multiplier the
code applies to pixel values in the fade branches; for PassThrough the
frame is copied verbatim (full intensity, recorded as 1) and for Skip no
output is produced (recorded as 0). -/
structure FrameClassification where
  disposition : Disposition
  fadeProgress : ℚ
  deriving DecidableEq, Repr

/-- Embedding of the classification logic shared by
`SingleFrameProcessor.process_frame` (single_frame_processor.py lines 38-65)
and `FramePreprocessor.__process_image` (frame_preprocessor.py lines
134-158).  Python raises ZeroDivisionError on `x / 0`; this is embedded as
an `Except.error .zeroDivisionError` exactly where the source divides by
`fade_seconds`. -/
def classify (adjustedTs sunrise sunset nightMargin fadeSeconds : ℚ) :
    Except PyError FrameClassification :=
  let earliest := sunrise - nightMargin
  let latest := sunset + nightMargin
  let sinceEarliest := adjustedTs - earliest
  let untilLatest := latest - adjustedTs
  if sinceEarliest < 0 ∨ untilLatest < 0 then
    .ok ⟨.Skip, 0⟩
  else
    let closeToEarliest := 0 ≤ sinceEarliest ∧ sinceEarliest ≤ fadeSeconds
    let closeToLatest := 0 ≤ untilLatest ∧ untilLatest ≤ fadeSeconds
    if closeToEarliest then
      if fadeSeconds = 0 then .error .zeroDivisionError
      else .ok ⟨.FadeEarly, sinceEarliest / fadeSeconds⟩
    else if closeToLatest then
      if fadeSeconds = 0 then .error .zeroDivisionError
      else .ok ⟨.FadeLate, untilLatest / fadeSeconds⟩
    else
      .ok ⟨.PassThrough, 1⟩

/-- C1: whenever the classifier assigns a FadeEarly or FadeLate
disposition, the fade progress it computes lies in the closed interval
[0,1] (for any adjusted timestamp, sunrise, sunset, night margin and fade
duration, hence in particular for every valid configuration). -/
theorem fadeProgress_mem_unitInterval
    (adjustedTs sunrise sunset nightMargin fadeSeconds : ℚ)
    (c : FrameClassification)
    (hok : classify adjustedTs sunrise sunset nightMargin fadeSeconds = .ok c)
    (hfade : c.disposition = .FadeEarly ∨ c.disposition = .FadeLate) :
    0 ≤ c.fadeProgress ∧ c.fadeProgress ≤ 1 := by
  unfold classify at hok
  set sinceEarliest := adjustedTs - (sunrise - nightMargin) with hse
  set untilLatest := sunset + nightMargin - adjustedTs with hul
  by_cases hskip : sinceEarliest < 0 ∨ untilLatest < 0
  · simp only [hskip, if_true] at hok
    cases hok
    rcases hfade with h | h <;> simp_all
  · simp only [hskip, if_false] at hok
    by_cases hce : 0 ≤ sinceEarliest ∧ sinceEarliest ≤ fadeSeconds
    · simp only [hce, if_true] at hok
      by_cases hz : fadeSeconds = 0
      · simp [hz] at hok
      · simp only [hz, if_false] at hok
        cases hok
        have hpos : 0 < fadeSeconds := lt_of_le_of_ne (le_trans hce.1 hce.2) (Ne.symm hz)
        exact ⟨div_nonneg hce.1 (le_of_lt hpos), (div_le_one hpos).mpr hce.2⟩
    · simp only [hce, if_false] at hok
      by_cases hcl : 0 ≤ untilLatest ∧ untilLatest ≤ fadeSeconds
      · simp only [hcl, if_true] at hok
        by_cases hz : fadeSeconds = 0
        · simp [hz] at hok
        · simp only [hz, if_false] at hok
          cases hok
          have hpos : 0 < fadeSeconds := lt_of_le_of_ne (le_trans hcl.1 hcl.2) (Ne.symm hz)
          exact ⟨div_nonneg hcl.1 (le_of_lt hpos), (div_le_one hpos).mpr hcl.2⟩
      · simp only [hcl, if_false] at hok
        cases hok
        rcases hfade with h | h <;> simp_all

/-- Witness for C1: a concrete FadeEarly classification whose progress is
within [0,1]. -/
theorem fadeProgress_mem_unitInterval_witness :
    0 ≤ (FrameClassification.mk .FadeEarly (1/2)).fadeProgress ∧
      (FrameClassification.mk .FadeEarly (1/2)).fadeProgress ≤ 1 :=
  fadeProgress_mem_unitInterval 925 1000 2000 100 50
    ⟨.FadeEarly, 1/2⟩ (by norm_num [classify]) (Or.inl rfl)

/-- C4: evaluation of the classifier at `fadeSeconds = 0`.  A frame whose
adjusted timestamp equals the earliest-frame boundary (sinceEarliest = 0)
makes the code compute `0 / 0`, raising ZeroDivisionError, instead of the
documented full-intensity pass-through; a frame strictly inside the fadeless
window is still a plain PassThrough.  Here sunrise = 1000, sunset = 2000,
nightMargin = 100, so the boundary frame is at 900. -/
theorem classify_fadeSecondsZero_boundary_raises :
    classify 900 1000 2000 100 0 = .error .zeroDivisionError ∧
      classify 1500 1000 2000 100 0 = .ok ⟨.PassThrough, 1⟩ := by
  constructor <;> norm_num [classify]

/-- Embedding of
`SingleFrameProcessor.__get_daylight_savings_adjusted_timestamp`
(single_frame_processor.py lines 74-89), identical to the inline logic of
`FramePreprocessor.__process_image` (frame_preprocessor.py lines 119-125).
The DST predicate collaborator is passed in as `isDst`. -/
def get_daylight_savings_adjusted_timestamp
    (isDst : ℤ → String → Bool) (options : FramePreprocessorOptions)
    (is_first_frame_in_daylight_savings : Bool) (timestamp_s : ℤ) : ℤ :=
  if options.ignore_daylight_savings_switch then
    let is_frame_in_daylight_savings := isDst timestamp_s options.timezone
    if is_first_frame_in_daylight_savings && !is_frame_in_daylight_savings then
      timestamp_s - 60 * 60
    else if !is_first_frame_in_daylight_savings && is_frame_in_daylight_savings then
      timestamp_s + 60 * 60
    else
      timestamp_s
  else
    timestamp_s

/-- Embedding of the `daylight_savings_flag` computation
(single_frame_processor.py line 121): the output is marked as shifted
exactly when the adjusted timestamp differs from the raw one. -/
def daylight_savings_shift_flag (adjusted_timestamp_s timestamp_s : ℤ) : Bool :=
  adjusted_timestamp_s != timestamp_s

/-- C3: the DST adjuster is the identity (with `wasShifted = false`) when
correction is disabled; with correction enabled it subtracts 3600 s when
the reference frame was in DST and this frame is not, adds 3600 s in the
opposite situation, and is the identity when both DST statuses agree. -/
theorem adjusted_timestamp_cases
    (isDst : ℤ → String → Bool) (options : FramePreprocessorOptions)
    (referenceIsDst : Bool) (ts : ℤ) :
    (options.ignore_daylight_savings_switch = false →
      get_daylight_savings_adjusted_timestamp isDst options referenceIsDst ts = ts ∧
      daylight_savings_shift_flag
        (get_daylight_savings_adjusted_timestamp isDst options referenceIsDst ts) ts = false) ∧
    (options.ignore_daylight_savings_switch = true → referenceIsDst = true →
      isDst ts options.timezone = false →
      get_daylight_savings_adjusted_timestamp isDst options referenceIsDst ts = ts - 3600) ∧
    (options.ignore_daylight_savings_switch = true → referenceIsDst = false →
      isDst ts options.timezone = true →
      get_daylight_savings_adjusted_timestamp isDst options referenceIsDst ts = ts + 3600) ∧
    (options.ignore_daylight_savings_switch = true →
      referenceIsDst = isDst ts options.timezone →
      get_daylight_savings_adjusted_timestamp isDst options referenceIsDst ts = ts) := by
  refine ⟨fun hoff => ?_, fun hon href hframe => ?_, fun hon href hframe => ?_,
    fun hon hsame => ?_⟩
  · simp [get_daylight_savings_adjusted_timestamp, daylight_savings_shift_flag, hoff]
  · simp [get_daylight_savings_adjusted_timestamp, hon, href, hframe]
  · simp [get_daylight_savings_adjusted_timestamp, hon, href, hframe]
  · cases hdst : isDst ts options.timezone <;>
      simp [get_daylight_savings_adjusted_timestamp, hon, hsame, hdst]

/-- Witness for C3, exercising all four cases of the adjuster on concrete
inputs: disabled correction, shift down, shift up, and agreeing statuses. -/
theorem adjusted_timestamp_cases_witness :
    (get_daylight_savings_adjusted_timestamp (fun _ _ => false)
        ⟨"out", ["in"], "UTC", none, none, none, 900, 3600, false, false, 20⟩ true 7200 = 7200 ∧
      daylight_savings_shift_flag 7200 7200 = false) ∧
    get_daylight_savings_adjusted_timestamp (fun _ _ => false)
      ⟨"out", ["in"], "UTC", none, none, none, 900, 3600, true, false, 20⟩ true 7200 = 7200 - 3600 ∧
    get_daylight_savings_adjusted_timestamp (fun _ _ => true)
      ⟨"out", ["in"], "UTC", none, none, none, 900, 3600, true, false, 20⟩ false 7200 = 7200 + 3600 ∧
    get_daylight_savings_adjusted_timestamp (fun _ _ => true)
      ⟨"out", ["in"], "UTC", none, none, none, 900, 3600, true, false, 20⟩ true 7200 = 7200 := by
  refine ⟨?_, ?_, ?_, ?_⟩
  · have h := (adjusted_timestamp_cases (fun _ _ => false)
      ⟨"out", ["in"], "UTC", none, none, none, 900, 3600, false, false, 20⟩ true 7200).1 rfl
    exact ⟨h.1, by nth_rewrite 1 [← h.1]; exact h.2⟩
  · exact (adjusted_timestamp_cases (fun _ _ => false)
      ⟨"out", ["in"], "UTC", none, none, none, 900, 3600, true, false, 20⟩ true 7200).2.1 rfl rfl rfl
  · exact (adjusted_timestamp_cases (fun _ _ => true)
      ⟨"out", ["in"], "UTC", none, none, none, 900, 3600, true, false, 20⟩ false 7200).2.2.1 rfl rfl rfl
  · exact (adjusted_timestamp_cases (fun _ _ => true)
      ⟨"out", ["in"], "UTC", none, none, none, 900, 3600, true, false, 20⟩ true 7200).2.2.2 rfl rfl

/-- Outcome of `pytz.timezone(tz).localize(dt, is_dst=None)` as seen by
`DatetimeUtils.is_in_daylight_savings`: a timezone-aware datetime whose
`_dst` offset is `dstSeconds`, or an AmbiguousTimeError (the repeated hour
of a DST transition), or a NonExistentTimeError (the skipped hour). -/
inductive LocalizeResult where
  | aware (dstSeconds : ℤ)
  | ambiguousTime
  | nonExistentTime
  deriving DecidableEq, Repr

/-- Embedding of `DatetimeUtils.is_in_daylight_savings` (datetime_utils.py
lines 11-24).  The `try` block catches only
`pytz.exceptions.AmbiguousTimeError`; a NonExistentTimeError raised for a
skipped local hour is not handled and propagates. -/
def is_in_daylight_savings (localize : ℤ → LocalizeResult) (timestamp_s : ℤ) :
    Except PyError Bool :=
  match localize timestamp_s with
  | .aware dstSeconds => .ok (dstSeconds != 0)
  | .ambiguousTime => .ok false
  | .nonExistentTime => .error .nonExistentTimeError

/-- Counterexample for C9: a timestamp in the skipped hour of a DST
transition makes the predicate propagate NonExistentTimeError instead of
returning false. -/
theorem is_in_daylight_savings_skipped_hour_raises :
    is_in_daylight_savings (fun _ => .nonExistentTime) 0 = .error .nonExistentTimeError ∧
      is_in_daylight_savings (fun _ => .nonExistentTime) 0 ≠ .ok false := by
  decide

/-- C9 (amended): a timestamp in the repeated (ambiguous) hour of a DST
transition is treated as not in DST; a timestamp in the skipped hour
propagates NonExistentTimeError; an unambiguous timestamp reports whether
its DST offset is nonzero. -/
theorem is_in_daylight_savings_cases
    (localize : ℤ → LocalizeResult) (timestamp_s : ℤ) :
    (localize timestamp_s = .ambiguousTime →
      is_in_daylight_savings localize timestamp_s = .ok false) ∧
    (localize timestamp_s = .nonExistentTime →
      is_in_daylight_savings localize timestamp_s = .error .nonExistentTimeError) ∧
    (∀ d : ℤ, localize timestamp_s = .aware d →
      is_in_daylight_savings localize timestamp_s = .ok (d != 0)) := by
  refine ⟨fun h => ?_, fun h => ?_, fun d h => ?_⟩ <;>
    simp [is_in_daylight_savings, h]

/-- Witness for C9 (amended), exercising all three localization outcomes
on concrete collaborators. -/
theorem is_in_daylight_savings_cases_witness :
    is_in_daylight_savings (fun _ => .ambiguousTime) 5 = .ok false ∧
    is_in_daylight_savings (fun _ => .nonExistentTime) 5 = .error .nonExistentTimeError ∧
    is_in_daylight_savings (fun _ => .aware 3600) 5 = .ok true := by
  refine ⟨(is_in_daylight_savings_cases (fun _ => .ambiguousTime) 5).1 rfl,
    (is_in_daylight_savings_cases (fun _ => .nonExistentTime) 5).2.1 rfl,
    (is_in_daylight_savings_cases (fun _ => .aware 3600) 5).2.2 3600 rfl⟩

/-- Comparison used by `sorted(image_paths, key=lambda x: images_data[x].timestamp_s)`
(frame_preprocessor.py line 58).  A record is a pair of its discovery
index and its timestamp; the sort key compares timestamps only. -/
def byTimestamp (a b : ℕ × ℤ) : Prop := a.2 ≤ b.2

instance : DecidableRel byTimestamp := fun a b => inferInstanceAs (Decidable (a.2 ≤ b.2))

/-- The discovery list of `preprocess_frames`: each record tagged with its
zero-based discovery position (the order `image_paths` was built in). -/
def taggedImages (timestamps : List ℤ) : List (ℕ × ℤ) := timestamps.enum

/-- Embedding of `sorted_image_paths` (frame_preprocessor.py line 58).
Python's `sorted` is a stable sort; it is modelled by the stable
`List.insertionSort` on discovery-tagged records. -/
def sorted_image_paths (timestamps : List ℤ) : List (ℕ × ℤ) :=
  List.insertionSort byTimestamp (taggedImages timestamps)

/-- Embedding of `image_ids` (frame_preprocessor.py line 60) together with
the work fan-out (lines 66-74): each record is paired with its position in
the sorted list, and this pairing is what every submitted worker receives. -/
def worker_assignments (timestamps : List ℤ) : List (ℕ × (ℕ × ℤ)) :=
  (sorted_image_paths timestamps).enum

/-- Model of `futures.as_completed` (frame_preprocessor.py line 75): the
workers finish in an arbitrary order, described by a list of indices into
the submitted futures; each observed completion carries the assignment the
worker was given at submission time. -/
def completed_assignments (timestamps : List ℤ) (completionOrder : List ℕ) :
    List (ℕ × (ℕ × ℤ)) :=
  completionOrder.filterMap (fun k => (worker_assignments timestamps).get? k)

/-- The strict ordering that the sequence assignment must respect: earlier
timestamp, or equal timestamps with earlier discovery position. -/
def seqBefore (a b : ℕ × ℤ) : Prop := a.2 < b.2 ∨ (a.2 = b.2 ∧ a.1 < b.1)

instance (a b : ℕ × ℤ) : Decidable (seqBefore a b) :=
  inferInstanceAs (Decidable (_ ∨ _))

theorem seqBefore.ts_le {a b : ℕ × ℤ} (h : seqBefore a b) : a.2 ≤ b.2 :=
  h.elim le_of_lt fun h2 => le_of_eq h2.1

theorem seqBefore.of_ts_le {a b : ℕ × ℤ} (h1 : a.2 ≤ b.2) (h2 : a.1 < b.1) :
    seqBefore a b := by
  rcases lt_or_eq_of_le h1 with h | h
  · exact Or.inl h
  · exact Or.inr ⟨h, h2⟩

theorem seqBefore.asymm {a b : ℕ × ℤ} (h1 : seqBefore a b) (h2 : seqBefore b a) :
    False := by
  rcases h1 with h1 | ⟨he1, hf1⟩ <;> rcases h2 with h2 | ⟨he2, hf2⟩
  · exact absurd h2 (lt_asymm h1)
  · exact absurd he2 (ne_of_gt h1)
  · exact absurd he1 (ne_of_gt h2)
  · exact absurd hf2 (Nat.lt_asymm hf1)

/-- Stability of one insertion step: inserting a record whose discovery
index exceeds every discovery index already present keeps the list
pairwise-ordered by `seqBefore`. -/
theorem pairwise_seqBefore_orderedInsert (a : ℕ × ℤ) :
    ∀ l : List (ℕ × ℤ), l.Pairwise seqBefore → (∀ b ∈ l, a.1 < b.1) →
      (l.orderedInsert byTimestamp a).Pairwise seqBefore := by
  intro l
  induction l with
  | nil => intro _ _; simp [List.orderedInsert]
  | cons b t ih =>
    intro hl ha
    rcases List.pairwise_cons.mp hl with ⟨hbt, ht⟩
    rw [List.orderedInsert]
    by_cases hab : byTimestamp a b
    · rw [if_pos hab]
      refine List.pairwise_cons.mpr ⟨?_, hl⟩
      intro x hx
      rcases List.mem_cons.mp hx with rfl | hxt
      · exact seqBefore.of_ts_le hab (ha x (List.mem_cons_self x t))
      · exact seqBefore.of_ts_le (le_trans hab (hbt x hxt).ts_le)
          (ha x (List.mem_cons_of_mem b hxt))
    · rw [if_neg hab]
      have hba : b.2 < a.2 := lt_of_not_le hab
      refine List.pairwise_cons.mpr
        ⟨?_, ih ht fun x hx => ha x (List.mem_cons_of_mem b hx)⟩
      intro x hx
      rcases (List.mem_orderedInsert byTimestamp).mp hx with rfl | hxt
      · exact Or.inl hba
      · exact hbt x hxt

/-- Stability of the full sort: a list whose discovery indices strictly
increase is sorted by `insertionSort byTimestamp` into a list that is
pairwise-ordered by `seqBefore`. -/
theorem pairwise_seqBefore_insertionSort :
    ∀ l : List (ℕ × ℤ), l.Pairwise (fun a b => a.1 < b.1) →
      (List.insertionSort byTimestamp l).Pairwise seqBefore := by
  intro l
  induction l with
  | nil => intro _; simp
  | cons a t ih =>
    intro hl
    rcases List.pairwise_cons.mp hl with ⟨hat, ht⟩
    rw [List.insertionSort]
    exact pairwise_seqBefore_orderedInsert a _ (ih ht)
      fun b hb => hat b ((List.mem_insertionSort byTimestamp).mp hb)

theorem taggedImages_pairwise_fst (timestamps : List ℤ) :
    (taggedImages timestamps).Pairwise (fun a b => a.1 < b.1) := by
  rw [taggedImages, List.pairwise_iff_getElem]
  intro i j hi hj hij
  simpa using hij

/-- C2: the sequence index is the position in the timestamp-sorted,
discovery-stable list, so a record with a strictly smaller timestamp (or
an equal timestamp and earlier discovery position) receives a strictly
smaller sequence index; and every assignment observed at any worker
completion order is exactly one of the assignments fixed at submission
time, before any parallel work. -/
theorem sequence_assignment_ordering
    (timestamps : List ℤ) (i j : ℕ)
    (hi : i < (sorted_image_paths timestamps).length)
    (hj : j < (sorted_image_paths timestamps).length) :
    (seqBefore ((sorted_image_paths timestamps).get ⟨i, hi⟩)
        ((sorted_image_paths timestamps).get ⟨j, hj⟩) → i < j) ∧
    (∀ completionOrder : List ℕ, ∀ p ∈ completed_assignments timestamps completionOrder,
      p ∈ worker_assignments timestamps) := by
  constructor
  · intro h
    have hp : (sorted_image_paths timestamps).Pairwise seqBefore :=
      pairwise_seqBefore_insertionSort _ (taggedImages_pairwise_fst timestamps)
    by_contra hij
    rcases eq_or_lt_of_le (Nat.le_of_not_lt hij) with heq | hlt
    · have : (⟨j, hj⟩ : Fin (sorted_image_paths timestamps).length) = ⟨i, hi⟩ :=
        Fin.ext heq
      rw [this] at h
      exact h.asymm h
    · exact h.asymm (List.pairwise_iff_get.mp hp ⟨j, hj⟩ ⟨i, hi⟩ hlt)
  · intro completionOrder p hp
    rcases List.mem_filterMap.mp hp with ⟨k, _, hsome⟩
    exact List.get?_mem hsome

/-- Witness for C2: with discovery timestamps [50, 10, 10], the two
records with timestamp 10 keep their discovery order at sequence indices
0 and 1, and the observed completion of worker 1 carries its precomputed
assignment. -/
theorem sequence_assignment_ordering_witness :
    (0 : ℕ) < 1 ∧ ((1 : ℕ), ((2 : ℕ), (10 : ℤ))) ∈ worker_assignments [50, 10, 10] := by
  have h := sequence_assignment_ordering [50, 10, 10] 0 1 (by decide) (by decide)
  exact ⟨h.1 (by decide), h.2 [1] ((1 : ℕ), ((2 : ℕ), (10 : ℤ))) (by decide)⟩

/-- Embedding of the result-collection loop of `preprocess_frames`
(frame_preprocessor.py lines 75-76): `for future in as_completed(...):
future.result()`.  `future.result()` re-raises the exception stored in a
failed future, which aborts the loop; the first component counts how many
futures had their result consumed before the loop ended. -/
def collect_results {ε : Type} : List (Except ε Unit) → ℕ → ℕ × Except ε Unit
  | [], n => (n, .ok ())
  | .error e :: _, n => (n + 1, .error e)
  | .ok _ :: rest, n => collect_results rest (n + 1)

/-- Counterexample for C5: with three workers whose middle one failed, the
collection loop consumes only two results — it stops early and re-raises
the failure instead of collecting every result into an aggregate summary. -/
theorem collect_results_stops_early :
    (collect_results [.ok (), .error PyError.zeroDivisionError, .ok ()] 0).1 ≠
      ([.ok (), .error PyError.zeroDivisionError, .ok ()] :
        List (Except PyError Unit)).length ∧
    (collect_results [.ok (), .error PyError.zeroDivisionError, .ok ()] 0).2 =
      .error PyError.zeroDivisionError := by
  decide

theorem collect_results_all_ok {ε : Type} :
    ∀ (results : List (Except ε Unit)) (n : ℕ), (∀ r ∈ results, r = .ok ()) →
      collect_results results n = (n + results.length, .ok ()) := by
  intro results
  induction results with
  | nil => intro n _; simp [collect_results]
  | cons r rest ih =>
    intro n hall
    have hr : r = .ok () := hall r (List.mem_cons_self r rest)
    subst hr
    rw [collect_results, ih (n + 1) fun x hx => hall x (List.mem_cons_of_mem _ hx)]
    simp [Nat.add_comm, Nat.add_assoc, Nat.add_left_comm]

theorem collect_results_append_error {ε : Type} (e : ε) (post : List (Except ε Unit)) :
    ∀ (pre : List (Except ε Unit)) (n : ℕ), (∀ r ∈ pre, r = .ok ()) →
      collect_results (pre ++ .error e :: post) n = (n + pre.length + 1, .error e) := by
  intro pre
  induction pre with
  | nil => intro n _; simp [collect_results]
  | cons r rest ih =>
    intro n hall
    have hr : r = .ok () := hall r (List.mem_cons_self r rest)
    subst hr
    rw [List.cons_append, collect_results,
      ih (n + 1) fun x hx => hall x (List.mem_cons_of_mem _ hx)]
    simp [Nat.add_comm, Nat.add_assoc, Nat.add_left_comm]

/-- C5 (amended): the run does not record per-frame failures — the
collection loop succeeds with all results consumed only when every worker
succeeded, and when some worker failed it re-raises the first stored
failure after consuming only the results before it. -/
theorem collect_results_spec {ε : Type}
    (results pre post : List (Except ε Unit)) (e : ε)
    (hall : ∀ r ∈ results, r = .ok ()) (hpre : ∀ r ∈ pre, r = .ok ()) :
    collect_results results 0 = (results.length, .ok ()) ∧
    collect_results (pre ++ .error e :: post) 0 = (pre.length + 1, .error e) := by
  refine ⟨?_, ?_⟩
  · rw [collect_results_all_ok results 0 hall, Nat.zero_add]
  · rw [collect_results_append_error e post pre 0 hpre, Nat.zero_add]

/-- Witness for C5 (amended): three successful workers are fully
consumed; a failure after one success is re-raised with only two results
consumed. -/
theorem collect_results_spec_witness :
    collect_results ([.ok (), .ok (), .ok ()] : List (Except PyError Unit)) 0 =
      (3, .ok ()) ∧
    collect_results
        ([.ok ()] ++ .error PyError.zeroDivisionError :: [.ok ()]) 0 =
      (2, .error PyError.zeroDivisionError) := by
  have h := collect_results_spec [.ok (), .ok (), .ok ()] [.ok ()] [.ok ()]
    PyError.zeroDivisionError (by decide) (by decide)
  exact ⟨h.1, h.2⟩

/-- File-system facts visible to option validation: `pathlib.Path.exists`
and `pathlib.Path.is_dir`. -/
structure FileSystem where
  pathExists : String → Bool
  isDirectory : String → Bool

/-- The assertion messages of `FramePreprocessor.__check_options`
(frame_preprocessor.py lines 78-94), one per assert. -/
inductive ConfigError where
  | outputDirAlreadyExists
  | noInputDirs
  | inputDirMissing
  | duplicateInputDirs
  | invalidWorkerThreadCount
  | latitudeOutOfRange
  | longitudeOutOfRange
  deriving DecidableEq, Repr

instance {p : ℚ → Prop} [DecidablePred p] (x : Option ℚ) : Decidable (∀ v ∈ x, p v) :=
  match x with
  | none => .isTrue (by intro v hv; cases hv)
  | some a =>
    if h : p a then .isTrue (by intro v hv; cases hv; exact h)
    else .isFalse (by intro hc; exact h (hc a rfl))

/-- Embedding of `FramePreprocessor.__check_options` (frame_preprocessor.py
lines 78-94): each failed assert raises, checked in source order.  The
duplicate check is `len(input_dirs) == len(set(input_dirs))`, modelled
with `List.dedup`. -/
def check_options (fs : FileSystem) (o : FramePreprocessorOptions) :
    Except ConfigError Unit :=
  if fs.pathExists o.output_dir then .error .outputDirAlreadyExists
  else if ¬0 < o.input_dirs.length then .error .noInputDirs
  else if ¬(∀ d ∈ o.input_dirs, fs.isDirectory d = true) then .error .inputDirMissing
  else if o.input_dirs.dedup.length ≠ o.input_dirs.length then .error .duplicateInputDirs
  else if ¬0 < o.worker_thread_count then .error .invalidWorkerThreadCount
  else if ¬(∀ lat ∈ o.latitude, -90 ≤ lat ∧ lat ≤ 90) then .error .latitudeOutOfRange
  else if ¬(∀ lon ∈ o.longitude, -180 ≤ lon ∧ lon ≤ 180) then .error .longitudeOutOfRange
  else .ok ()

/-- Embedding of the head of `preprocess_frames` (frame_preprocessor.py
lines 33-47): `__check_options` runs first and an exception from it aborts
the run; only afterwards are images discovered and their EXIF data read.
The second component lists the images whose bytes get read. -/
def preprocess_frames_io (fs : FileSystem) (o : FramePreprocessorOptions)
    (discovered : List String) : Except ConfigError Unit × List String :=
  match check_options fs o with
  | .error e => (.error e, [])
  | .ok () => (.ok (), discovered)

/-- Counterexample for C8: a configuration whose fade seconds (999999)
and night-margin seconds (-5) are far outside 0..14400 and whose resize
width (999999) is outside 1..10000 still passes validation. -/
theorem check_options_skips_range_checks :
    check_options ⟨fun _ => false, fun _ => true⟩
        ⟨"out", ["in"], "UTC", none, none, some 999999, 999999, -5, false, false, 20⟩ =
      .ok () ∧
    ¬((999999 : ℤ) ≤ 14400) ∧ ¬((0 : ℤ) ≤ -5) ∧ ¬((999999 : ℤ) ≤ 10000) := by
  decide

/-- C8 (amended): validation accepts a configuration exactly when the
output directory does not exist, there is at least one input directory,
all input directories exist with no duplicates, the worker count is
positive and any default latitude/longitude are in range — fade seconds,
night-margin seconds and resize width are never checked — and a
validation failure aborts the run before any image I/O. -/
theorem check_options_characterization (fs : FileSystem) (o : FramePreprocessorOptions) :
    (check_options fs o = .ok () ↔
      (fs.pathExists o.output_dir = false ∧
       0 < o.input_dirs.length ∧
       (∀ d ∈ o.input_dirs, fs.isDirectory d = true) ∧
       o.input_dirs.Nodup ∧
       0 < o.worker_thread_count ∧
       (∀ lat ∈ o.latitude, -90 ≤ lat ∧ lat ≤ 90) ∧
       (∀ lon ∈ o.longitude, -180 ≤ lon ∧ lon ≤ 180))) ∧
    (∀ (e : ConfigError) (discovered : List String), check_options fs o = .error e →
      preprocess_frames_io fs o discovered = (.error e, [])) := by
  constructor
  · constructor
    · intro hok
      unfold check_options at hok
      split_ifs at hok with h1 h2 h3 h4 h5 h6 h7
      have hnd : o.input_dirs.Nodup := by
        rw [← List.dedup_eq_self]
        exact (o.input_dirs.dedup_sublist).eq_of_length (not_ne_iff.mp h4)
      exact ⟨Bool.of_not_eq_true h1, h2, h3, hnd, h5, h6, h7⟩
    · rintro ⟨c1, c2, c3, c4, c5, c6, c7⟩
      have hd : o.input_dirs.dedup = o.input_dirs := List.dedup_eq_self.mpr c4
      unfold check_options
      rw [if_neg (by simp [c1]), if_neg (not_not.mpr c2), if_neg (not_not.mpr c3),
        if_neg (not_ne_iff.mpr (congrArg List.length hd)), if_neg (not_not.mpr c5),
        if_neg (not_not.mpr c6), if_neg (not_not.mpr c7)]
  · intro e discovered h
    simp [preprocess_frames_io, h]

/-- Witness for C8 (amended): a fully valid configuration passes
validation, and a configuration whose output directory already exists is
rejected before any image I/O. -/
theorem check_options_characterization_witness :
    check_options ⟨fun _ => false, fun _ => true⟩
        ⟨"out", ["in"], "UTC", some 45, some 20, none, 900, 3600, false, false, 20⟩ =
      .ok () ∧
    preprocess_frames_io ⟨fun _ => true, fun _ => true⟩
        ⟨"out", ["in"], "UTC", none, none, none, 900, 3600, false, false, 20⟩
        ["img0.jpg"] =
      (.error .outputDirAlreadyExists, []) := by
  refine ⟨?_, ?_⟩
  · exact (check_options_characterization ⟨fun _ => false, fun _ => true⟩
      ⟨"out", ["in"], "UTC", some 45, some 20, none, 900, 3600, false, false, 20⟩).1.mpr
      (by norm_num)
  · exact (check_options_characterization ⟨fun _ => true, fun _ => true⟩
      ⟨"out", ["in"], "UTC", none, none, none, 900, 3600, false, false, 20⟩).2
      .outputDirAlreadyExists ["img0.jpg"] (by decide)

/-- Arguments passed to the sun-events collaborator
(`SunTimes.risewhere` / `SunTimes.setwhere`): a calendar date and a
timezone name. -/
structure SunQuery where
  queryDate : ℤ
  zone : String
  deriving DecidableEq, Repr

/-- Embedding of the sun-events call of `FramePreprocessor.__process_image`
(frame_preprocessor.py lines 127-132): the date is
`date.fromtimestamp(frame_timestamp_s)`, i.e. the *system* local calendar
date (the `systemLocalDate` collaborator), and the zone argument is the
string literal 'Europe/Belgrade'. -/
def process_image_sun_query (systemLocalDate : ℤ → ℤ)
    (_o : FramePreprocessorOptions) (frame_timestamp_s : ℤ) : SunQuery :=
  { queryDate := systemLocalDate frame_timestamp_s, zone := "Europe/Belgrade" }

/-- Embedding of the sun-events call of
`SingleFrameProcessor.__get_sunrise_sunset` (single_frame_processor.py
lines 96-98): the zone is the configured one, but the date still comes
from the system-local `date.fromtimestamp`. -/
def single_frame_sun_query (systemLocalDate : ℤ → ℤ)
    (o : FramePreprocessorOptions) (timestamp_s : ℤ) : SunQuery :=
  { queryDate := systemLocalDate timestamp_s, zone := o.timezone }

/-- Zone string passed to `__is_daylight_savings` for the current frame
(frame_preprocessor.py line 121). -/
def process_image_dst_zone (_o : FramePreprocessorOptions) : String :=
  "Europe/Belgrade"

/-- Zone string passed to `__is_daylight_savings` for the reference frame
(frame_preprocessor.py lines 62-64). -/
def reference_dst_zone (_o : FramePreprocessorOptions) : String :=
  "Europe/Belgrade"

/-- C6: evaluation of the zone and date arguments for a run configured
with timezone 'America/New_York'.  The orchestrator path queries sunrise,
sunset and both DST statuses with the fixed zone 'Europe/Belgrade', not
the configured zone, and both paths derive the calendar date with the
system-local `date.fromtimestamp`, not a localization to the configured
timezone. -/
theorem sun_query_ignores_configured_timezone :
    (process_image_sun_query (fun ts => ts / 86400)
        ⟨"out", ["in"], "America/New_York", none, none, none, 900, 3600, false, false, 20⟩
        1700000000).zone = "Europe/Belgrade" ∧
    (process_image_sun_query (fun ts => ts / 86400)
        ⟨"out", ["in"], "America/New_York", none, none, none, 900, 3600, false, false, 20⟩
        1700000000).zone ≠ "America/New_York" ∧
    process_image_dst_zone
        ⟨"out", ["in"], "America/New_York", none, none, none, 900, 3600, false, false, 20⟩ ≠
      "America/New_York" ∧
    reference_dst_zone
        ⟨"out", ["in"], "America/New_York", none, none, none, 900, 3600, false, false, 20⟩ ≠
      "America/New_York" ∧
    (process_image_sun_query (fun ts => ts / 86400)
        ⟨"out", ["in"], "America/New_York", none, none, none, 900, 3600, false, false, 20⟩
        1700000000).queryDate = 1700000000 / 86400 ∧
    (single_frame_sun_query (fun ts => ts / 86400)
        ⟨"out", ["in"], "America/New_York", none, none, none, 900, 3600, false, false, 20⟩
        1700000000).queryDate = 1700000000 / 86400 := by
  refine ⟨rfl, ?_, ?_, ?_, rfl, rfl⟩ <;> decide

/-- Embedding of the classification inputs of
`FramePreprocessor.__process_image` (frame_preprocessor.py lines 116-117):
`fade_seconds = 30 * 60` and `night_margin_seconds = 60 * 60` are local
constants; the configured `fade_seconds` / `night_margin_seconds` options
are not consulted. -/
def process_image_classify (_o : FramePreprocessorOptions)
    (frame_timestamp_s sunrise sunset : ℚ) : Except PyError FrameClassification :=
  let fade_seconds : ℚ := 30 * 60
  let night_margin_seconds : ℚ := 60 * 60
  classify frame_timestamp_s sunrise sunset night_margin_seconds fade_seconds

/-- C7: evaluation at the CLI defaults (fade 900 s, margin 3600 s).  A
frame 1000 s after the earliest-frame boundary is classified FadeEarly
with progress 1000/1800 by the run (hard-coded fade of 1800 s), while the
classifier fed the configured values classifies it PassThrough — the run
does not use the configuration's fade seconds. -/
theorem process_image_ignores_configured_fade :
    process_image_classify
        ⟨"out", ["in"], "UTC", none, none, none, 900, 3600, false, false, 20⟩
        7400 10000 20000 = .ok ⟨.FadeEarly, 5/9⟩ ∧
    classify 7400 10000 20000
        (((⟨"out", ["in"], "UTC", none, none, none, 900, 3600, false, false, 20⟩ :
          FramePreprocessorOptions).night_margin_seconds : ℚ))
        (((⟨"out", ["in"], "UTC", none, none, none, 900, 3600, false, false, 20⟩ :
          FramePreprocessorOptions).fade_seconds : ℚ)) = .ok ⟨.PassThrough, 1⟩ := by
  constructor <;> norm_num [process_image_classify, classify]

/-- Embedding of the zero-padded decimal formatting `f'{n:010d}'` /
`f'{n:03d}'`. -/
def zeroPad (width : ℕ) (n : ℕ) : String :=
  let s := toString n
  String.mk (List.replicate (width - s.length) '0') ++ s

/-- Embedding of the file-name construction of
`SingleFrameProcessor.__generate_output_image_path`
(single_frame_processor.py lines 117-126), shared by
`FramePreprocessor.__process_image` (frame_preprocessor.py lines 146-150).
The wall-clock formatting `strftime` is the collaborator `formatTime`. -/
def generate_output_image_name (formatTime : ℤ → String) (image_id : ℕ)
    (frame_timestamp_s : ℤ)
    (before_sunrise after_sunset dst_shifted : Bool) : String :=
  zeroPad 10 image_id ++ "_" ++ formatTime frame_timestamp_s ++
    (if before_sunrise then "_b" else "") ++
    (if after_sunset then "_a" else "") ++
    (if dst_shifted then "_d" else "") ++ ".jpg"

/-- Embedding of the input-discovery suffix filter
(frame_preprocessor.py lines 40-43): `f.suffix.lower() in
['.jpg', '.jpeg', '.png']`. -/
def is_accepted_image_suffix (suffix : String) : Bool :=
  [".jpg", ".jpeg", ".png"].contains (String.mk (suffix.data.map Char.toLower))

/-- Embedding of `(image * progress).astype('uint8')` for one pixel value:
multiply, truncate to integer, wrap into the uint8 range. -/
def fadePixel (progress : ℚ) (v : ℕ) : ℕ :=
  (⌊(v : ℚ) * progress⌋).toNat % 256

/-- Embedding of the output-producing tail of
`SingleFrameProcessor.process_frame` (single_frame_processor.py lines
47-72): skip outside the window, fade-write in the fade ranges, and a
verbatim `shutil.copy` otherwise.  The result carries the output path and
the bytes written there (`none` when the frame was skipped). -/
def process_frame_output (formatTime : ℤ → String) (o : FramePreprocessorOptions)
    (image_id : ℕ) (timestamp_s adjusted_timestamp_s : ℤ) (sunrise sunset : ℚ)
    (sourceBytes : List ℕ) : Except PyError (Option (String × List ℕ)) :=
  match classify (adjusted_timestamp_s : ℚ) sunrise sunset
      (o.night_margin_seconds : ℚ) (o.fade_seconds : ℚ) with
  | .error e => .error e
  | .ok c =>
    match c.disposition with
    | .Skip => .ok none
    | .PassThrough =>
      .ok (some (o.output_dir ++ "/" ++ zeroPad 3 (image_id / 500) ++ "/" ++
        generate_output_image_name formatTime image_id adjusted_timestamp_s
          (decide ((adjusted_timestamp_s : ℚ) - sunrise < 0))
          (decide (sunset - (adjusted_timestamp_s : ℚ) < 0))
          (adjusted_timestamp_s != timestamp_s), sourceBytes))
    | _ =>
      .ok (some (o.output_dir ++ "/" ++ zeroPad 3 (image_id / 500) ++ "/" ++
        generate_output_image_name formatTime image_id adjusted_timestamp_s
          (decide ((adjusted_timestamp_s : ℚ) - sunrise < 0))
          (decide (sunset - (adjusted_timestamp_s : ℚ) < 0))
          (adjusted_timestamp_s != timestamp_s),
        sourceBytes.map (fadePixel c.fadeProgress)))

/-- C10: every generated output file name ends in '.jpg' (the name never
depends on the source extension), a PassThrough frame's bytes are written
verbatim to a '.jpg'-named path, and input discovery accepts '.png' and
'.jpeg' sources. -/
theorem output_name_jpg_and_passthrough_verbatim
    (formatTime : ℤ → String) (o : FramePreprocessorOptions) (image_id : ℕ)
    (timestamp_s adjusted_timestamp_s : ℤ) (sunrise sunset : ℚ)
    (sourceBytes : List ℕ)
    (before_sunrise after_sunset dst_shifted : Bool) (c : FrameClassification)
    (hc : classify (adjusted_timestamp_s : ℚ) sunrise sunset
      (o.night_margin_seconds : ℚ) (o.fade_seconds : ℚ) = .ok c)
    (hpass : c.disposition = .PassThrough) :
    (∃ stem, generate_output_image_name formatTime image_id adjusted_timestamp_s
        before_sunrise after_sunset dst_shifted = stem ++ ".jpg") ∧
    (∃ p stem, process_frame_output formatTime o image_id timestamp_s
        adjusted_timestamp_s sunrise sunset sourceBytes = .ok (some (p, sourceBytes)) ∧
        p = stem ++ ".jpg") ∧
    is_accepted_image_suffix ".png" = true ∧
    is_accepted_image_suffix ".jpeg" = true := by
  refine ⟨⟨_, rfl⟩, ?_, by decide, by decide⟩
  obtain ⟨d, fp⟩ := c
  simp only at hpass
  subst hpass
  simp only [process_frame_output, hc]
  exact ⟨_, _, rfl, (String.append_assoc _ _ ".jpg").symm⟩

/-- Witness for C10: a concrete PassThrough frame (adjusted timestamp
15000, sunrise 10000, sunset 20000, margin 3600 s, fade 900 s) whose bytes
[7, 8, 9] are copied verbatim under a '.jpg'-named path. -/
theorem output_name_jpg_and_passthrough_verbatim_witness :
    (∃ stem, generate_output_image_name (fun _ => "2023_01_01_12_00_00") 0 15000
        false false false = stem ++ ".jpg") ∧
    (∃ p stem, process_frame_output (fun _ => "2023_01_01_12_00_00")
        ⟨"out", ["in"], "UTC", none, none, none, 900, 3600, false, false, 20⟩
        0 15000 15000 10000 20000 [7, 8, 9] = .ok (some (p, [7, 8, 9])) ∧
        p = stem ++ ".jpg") ∧
    is_accepted_image_suffix ".png" = true ∧
    is_accepted_image_suffix ".jpeg" = true :=
  output_name_jpg_and_passthrough_verbatim (fun _ => "2023_01_01_12_00_00")
    ⟨"out", ["in"], "UTC", none, none, none, 900, 3600, false, false, 20⟩
    0 15000 15000 10000 20000 [7, 8, 9] false false false
    ⟨.PassThrough, 1⟩ (by norm_num [classify]) rfl

end Timelapse
